import Mathlib

/-!
Shallow embedding of the Book Catalog REST API from `part-4/app.py`
(Flask + SQLAlchemy, SQLite backend).

Modelling choices, all taken from the source:
* A `Book` row carries the six declared columns.  `year` and `isbn` are
  nullable columns, so they are `Option`s; `title`/`author` are
  `nullable=False` columns, so they are plain `String`s; `created_at`
  (a timestamp) is modelled as a `Nat` clock value supplied to the
  create handler ("now").
* The database is the list of rows in rowid (= insertion) order, which
  is the traversal order of an unordered `query.all()` in SQLite.
* A JSON request body is `Option BookBody`: `none` stands for an
  absent/null body (`request.get_json()` returning `None`); a present
  object records, for each of the four writable keys, whether the key
  occurs and with which value.  For `year`/`isbn` the value itself may
  be JSON `null`, hence the nested `Option`.  (Bodies whose `title` or
  `author` value is JSON `null` or a non-string, and non-object bodies,
  are outside the model.)
* Python truthiness of `data.get(k)` for string fields is: the key is
  present and its value is a non-empty string.
* The `isbn` column is declared `unique=True`; a commit that would
  store a non-null isbn already present on another row raises an
  `IntegrityError`, which no handler catches, so the request ends in an
  HTTP 500 with the session rolled back.  This is the `serverError`
  outcome, with the database unchanged.
-/

structure Book where
  id : Nat
  title : String
  author : String
  year : Option Int
  isbn : Option String
  created_at : Nat
deriving Repr, DecidableEq

abbrev DB := List Book

/-- A parsed JSON object body for create/update requests.  The outer
`Option` is key presence; for `year`/`isbn` the inner `Option` is the
JSON value (which may be `null`). -/
structure BookBody where
  title : Option String := none
  author : Option String := none
  year : Option (Option Int) := none
  isbn : Option (Option String) := none
deriving Repr, DecidableEq

/-- The value of `data.get(key)` for a nullable key: `none` when the
key is absent or its JSON value is `null`. -/
def jsonVal {α : Type} : Option (Option α) → Option α
  | none => none
  | some v => v

/-- `not data` in Python is true for the empty JSON object `{}` as well as
for `None`; an object with no modelled keys is falsy. -/
def BookBody.isEmpty (d : BookBody) : Bool :=
  d.title.isNone && d.author.isNone && d.year.isNone && d.isbn.isNone

/-- Truthiness of `data.get(key)` for a string-valued key: present and
non-empty. -/
def truthy : Option String → Bool
  | some s => s ≠ ""
  | none => false

/-- All JSON responses of the five handlers.  `errResp` carries the
status code and the `error` string of the `success=false` envelope;
`serverError` is an uncaught exception (HTTP 500, no envelope). -/
inductive Resp where
  | listOk (page per_page total : Nat) (books : List Book)
  | createdOk (book : Book)
  | updatedOk (book : Book)
  | deletedOk
  | searchOk (count : Nat) (books : List Book)
  | errResp (status : Nat) (msg : String)
  | serverError
deriving Repr, DecidableEq

def Resp.success : Resp → Bool
  | .errResp _ _ => false
  | .serverError => false
  | _ => true

def Resp.status : Resp → Nat
  | .listOk _ _ _ _ => 200
  | .createdOk _ => 201
  | .updatedOk _ => 200
  | .deletedOk => 200
  | .searchOk _ _ => 200
  | .errResp s _ => s
  | .serverError => 500

/-- The `books` array of a response (empty when the response carries
none). -/
def Resp.books : Resp → List Book
  | .listOk _ _ _ bs => bs
  | .searchOk _ bs => bs
  | _ => []

/-- `Book.query.get(id)`: primary-key lookup. -/
def lookupBook (db : DB) (id : Nat) : Option Book :=
  db.find? (fun b => b.id == id)

/-- SQLite rowid assignment for an integer primary key: one more than
the largest existing id. -/
def freshId (db : DB) : Nat :=
  (db.map Book.id).foldr Nat.max 0 + 1

/-- Does some row carry exactly this (non-null) isbn?  Used both by the
handler's duplicate check and by the storage-level unique constraint. -/
def isbnTaken (db : DB) : Option String → Bool
  | some s => db.any (fun b => b.isbn == some s)
  | none => false

/- ===================== sorting (GET /api/books) ===================== -/

/-- The six mapped column attributes of `Book`: the names `order_by`
can actually sort by. -/
def sortColumns : List String := ["id", "title", "author", "year", "isbn", "created_at"]

/-- Non-column attributes of the `Book` class for which
`hasattr(Book, s)` is also true: `to_dict` is the method defined in the
source, `query`/`metadata`/`registry` come from the ORM declarative
base, and `__init__` from Python itself.  For each of these, `getattr`
yields a non-column object, on which `column.desc()` raises
`AttributeError` and `query.order_by(column)` raises SQLAlchemy's
`ArgumentError` — either way an uncaught exception, HTTP 500.
(Python's attribute namespace is open-ended; the remaining dunder names
behave like the ones listed and are not enumerated.) -/
def nonColumnAttrs : List String := ["to_dict", "query", "metadata", "registry", "__init__"]

/-- `hasattr(Book, s)`: true for the mapped columns and for the
class's non-column attributes alike. -/
def hasattrBook (s : String) : Bool :=
  s ∈ sortColumns || s ∈ nonColumnAttrs

/-- SQL ordering on a nullable integer column: NULLs first (SQLite
ascending order). -/
def optIntLeB : Option Int → Option Int → Bool
  | none, _ => true
  | some _, none => false
  | some x, some y => decide (x ≤ y)

/-- SQL ordering on a nullable string column: NULLs first. -/
def optStrLeB : Option String → Option String → Bool
  | none, _ => true
  | some _, none => false
  | some x, some y => decide (x ≤ y)

/-- Ascending comparison of two rows by the named column. -/
def fieldLeB (s : String) (a b : Book) : Bool :=
  if s = "id" then decide (a.id ≤ b.id)
  else if s = "title" then decide (a.title ≤ b.title)
  else if s = "author" then decide (a.author ≤ b.author)
  else if s = "year" then optIntLeB a.year b.year
  else if s = "isbn" then optStrLeB a.isbn b.isbn
  else if s = "created_at" then decide (a.created_at ≤ b.created_at)
  else true

/-- The comparison actually used by `ORDER BY`: descending exactly when
`order == 'desc'`, ascending for every other `order` value. -/
def bookLeB (s ord : String) (a b : Book) : Bool :=
  if ord = "desc" then fieldLeB s b a else fieldLeB s a b

def bookRel (s ord : String) (a b : Book) : Prop :=
  bookLeB s ord a b = true

instance (s ord : String) : DecidableRel (bookRel s ord) :=
  fun x y => instDecidableEqBool (bookLeB s ord x y) true

/-- `ORDER BY` when `sort` names a column; the unsorted rowid
traversal otherwise.  (The raising non-column-attribute case is handled
in `get_books` itself.) -/
def sortBooks (db : DB) (s ord : String) : DB :=
  if s ∈ sortColumns then List.insertionSort (bookRel s ord) db else db

/- ===================== the five handlers ===================== -/

/-- GET /api/books with `page`, `per_page`, `sort`, `order`.
When `sort` names a non-column attribute, the `hasattr` guard passes
but `column.desc()` / `order_by(column)` raises before pagination runs:
HTTP 500.  Otherwise `paginate(..., error_out=False)` substitutes 1
for a page below 1 and 20 for a per_page below 1, but echoes the
request values. -/
def get_books (db : DB) (page per_page : Nat) (sort order : String) : Resp :=
  if hasattrBook sort = true ∧ sort ∉ sortColumns then .serverError
  else
    let p := if page = 0 then 1 else page
    let k := if per_page = 0 then 20 else per_page
    .listOk page per_page db.length (((sortBooks db sort order).drop ((p - 1) * k)).take k)

/-- The row constructed by the create handler: `year`/`isbn` are
`data.get(...)`, i.e. `null` when the key is absent or its value is
`null` (`jsonVal`). -/
def mkNewBook (db : DB) (now : Nat) (d : BookBody) : Book :=
  { id := freshId db
    title := d.title.getD ""
    author := d.author.getD ""
    year := jsonVal d.year
    isbn := jsonVal d.isbn
    created_at := now }

/-- POST /api/books. -/
def create_book (db : DB) (now : Nat) (body : Option BookBody) : Resp × DB :=
  match body with
  | none => (.errResp 400 "No data provided", db)
  | some d =>
    if d.isEmpty then (.errResp 400 "No data provided", db)
    else if !(truthy d.title && truthy d.author) then
      (.errResp 400 "Title and author are required", db)
    else if truthy (jsonVal d.isbn) && isbnTaken db (jsonVal d.isbn) then
      (.errResp 400 "ISBN already exists", db)
    else
      let nb := mkNewBook db now d
      if isbnTaken db nb.isbn then (.serverError, db)
      else (.createdOk nb, db ++ [nb])

/-- The mutation the update handler performs on the loaded row: each of
the four writable fields is overwritten exactly when its key is present
in the body. -/
def applyUpdate (b : Book) (d : BookBody) : Book :=
  { b with
    title := d.title.getD b.title
    author := d.author.getD b.author
    year := match d.year with | some v => v | none => b.year
    isbn := match d.isbn with | some v => v | none => b.isbn }

/-- Would committing row `id` with this isbn violate the unique
constraint against some other row? -/
def isbnConflicts (db : DB) (id : Nat) : Option String → Bool
  | some s => db.any (fun x => x.id != id && x.isbn == some s)
  | none => false

/-- PUT /api/books/<id>. -/
def update_book (db : DB) (id : Nat) (body : Option BookBody) : Resp × DB :=
  match lookupBook db id with
  | none => (.errResp 404 "Book not found", db)
  | some b =>
    match body with
    | none => (.errResp 400 "No data provided", db)
    | some d =>
      if d.isEmpty then (.errResp 400 "No data provided", db)
      else
        let b' := applyUpdate b d
        if isbnConflicts db id b'.isbn then (.serverError, db)
        else (.updatedOk b', db.map (fun x => if x.id == id then b' else x))

/-- DELETE /api/books/<id>: `DELETE FROM book WHERE id = ?`. -/
def delete_book (db : DB) (id : Nat) : Resp × DB :=
  match lookupBook db id with
  | none => (.errResp 404 "Book not found", db)
  | some _ => (.deletedOk, db.filter (fun x => x.id != id))

/-- Accumulate decimal digits; fails on the first non-digit. -/
def parseDigits (cs : List Char) (acc : Nat) : Option Nat :=
  match cs with
  | [] => some acc
  | c :: rest => if c.isDigit then parseDigits rest (acc * 10 + (c.toNat - 48)) else none

/-- A non-empty all-digit run. -/
def parseNatStr (cs : List Char) : Option Nat :=
  match cs with
  | [] => none
  | _ => parseDigits cs 0

/-- Python's `int(s)` on a decimal literal with an optional sign:
`some n` when the parse succeeds, `none` when `int` raises
`ValueError`.  (Python also tolerates surrounding whitespace and
underscore separators; those exotic literals are outside the model.) -/
def pyInt (s : String) : Option Int :=
  match s.toList with
  | '-' :: cs => (parseNatStr cs).map (fun n => -(n : Int))
  | '+' :: cs => (parseNatStr cs).map (fun n => (n : Int))
  | cs => (parseNatStr cs).map (fun n => (n : Int))

/-- ASCII lower-casing of a string, character by character (SQLite's
`LIKE`/`lower()` fold ASCII case only). -/
def lowerChars (s : String) : List Char :=
  s.toList.map Char.toLower

/-- SQL LIKE matching (no ESCAPE clause, as in the source): `%` matches
any run of characters, `_` matches exactly one character, any other
pattern character matches itself; the whole pattern must cover the
whole text.  Case is folded by the caller. -/
def likeMatch : List Char → List Char → Bool
  | [], t => t.isEmpty
  | '%' :: ps, t => (List.range (t.length + 1)).any (fun i => likeMatch ps (t.drop i))
  | '_' :: ps, t =>
    match t with
    | [] => false
    | _ :: ts => likeMatch ps ts
  | p :: ps, t =>
    match t with
    | [] => false
    | c :: ts => p == c && likeMatch ps ts

/-- `column.ilike(f'%{pat}%')`: the parameter is interpolated into the
LIKE pattern unescaped, so wildcards inside it are interpreted; the
surrounding `%`s make it a containment test, and the comparison is
ASCII case-insensitive. -/
def ilikeContains (hay pat : String) : Bool :=
  likeMatch ('%' :: (lowerChars pat ++ ['%'])) (lowerChars hay)

/-- The `q` filter stage: `Book.title.ilike('%q%')`, skipped when the
parameter is absent or the empty string (falsy). -/
def applyTitleFilter (q : Option String) (db : DB) : DB :=
  match q with
  | some s => if s = "" then db else db.filter (fun b => ilikeContains b.title s)
  | none => db

/-- The `author` filter stage, analogous. -/
def applyAuthorFilter (author : Option String) (db : DB) : DB :=
  match author with
  | some s => if s = "" then db else db.filter (fun b => ilikeContains b.author s)
  | none => db

/-- GET /api/books/search.  The three filters are applied in sequence;
an empty-string parameter is falsy and skipped.  A non-empty `year`
that `int()` cannot parse raises `ValueError` (HTTP 500); integer
parsing is modelled by `pyInt`. -/
def search_books (db : DB) (q author year : Option String) : Resp :=
  let s2 := applyAuthorFilter author (applyTitleFilter q db)
  match year with
  | none => .searchOk s2.length s2
  | some s =>
    if s = "" then .searchOk s2.length s2
    else
      match pyInt s with
      | none => .serverError
      | some n =>
        let s3 := s2.filter (fun b => b.year == some n)
        .searchOk s3.length s3

/- ===================== helper lemmas ===================== -/

theorem optIntLeB_total (a b : Option Int) : optIntLeB a b = true ∨ optIntLeB b a = true := by
  cases a <;> cases b <;> simp [optIntLeB] <;> omega

theorem optIntLeB_trans {a b c : Option Int} (h1 : optIntLeB a b = true)
    (h2 : optIntLeB b c = true) : optIntLeB a c = true := by
  cases a <;> cases b <;> cases c <;> simp_all [optIntLeB] <;> omega

theorem optStrLeB_total (a b : Option String) : optStrLeB a b = true ∨ optStrLeB b a = true := by
  cases a <;> cases b <;> simp [optStrLeB]
  exact le_total _ _

theorem optStrLeB_trans {a b c : Option String} (h1 : optStrLeB a b = true)
    (h2 : optStrLeB b c = true) : optStrLeB a c = true := by
  cases a <;> cases b <;> cases c <;> simp_all [optStrLeB]
  exact le_trans h1 h2

theorem fieldLeB_total (s : String) (a b : Book) : fieldLeB s a b = true ∨ fieldLeB s b a = true := by
  unfold fieldLeB
  split_ifs <;>
    first
      | (left; rfl)
      | (simp only [decide_eq_true_eq]; exact le_total _ _)
      | exact optIntLeB_total _ _
      | exact optStrLeB_total _ _

theorem fieldLeB_trans (s : String) {a b c : Book} (h1 : fieldLeB s a b = true)
    (h2 : fieldLeB s b c = true) : fieldLeB s a c = true := by
  unfold fieldLeB at *
  split_ifs at * <;>
    first
      | rfl
      | (simp only [decide_eq_true_eq] at *; exact le_trans h1 h2)
      | exact optIntLeB_trans h1 h2
      | exact optStrLeB_trans h1 h2

instance (s ord : String) : IsTotal Book (bookRel s ord) where
  total a b := by
    unfold bookRel bookLeB
    split_ifs
    · exact (fieldLeB_total s b a).symm.imp id id |>.symm
    · exact fieldLeB_total s a b

instance (s ord : String) : IsTrans Book (bookRel s ord) where
  trans a b c h1 h2 := by
    unfold bookRel bookLeB at *
    split_ifs at *
    · exact fieldLeB_trans s h2 h1
    · exact fieldLeB_trans s h1 h2

theorem sortBooks_length (db : DB) (s ord : String) : (sortBooks db s ord).length = db.length := by
  unfold sortBooks
  split
  · exact List.length_insertionSort ..
  · rfl

theorem mem_sortBooks {x : Book} {db : DB} {s ord : String} :
    x ∈ sortBooks db s ord ↔ x ∈ db := by
  unfold sortBooks
  split
  · exact List.mem_insertionSort ..
  · exact Iff.rfl

theorem sortBooks_sorted (db : DB) {s : String} (ord : String) (h : s ∈ sortColumns) :
    List.Sorted (bookRel s ord) (sortBooks db s ord) := by
  unfold sortBooks
  rw [if_pos h]
  exact List.sorted_insertionSort ..

/-- A `take` of a `drop` is a sublist, so it keeps any sortedness. -/
theorem sorted_take_drop {r : Book → Book → Prop} {l : List Book} (m k : Nat)
    (h : List.Sorted r l) : List.Sorted r ((l.drop m).take k) :=
  List.Pairwise.sublist ((List.take_sublist ..).trans (List.drop_sublist ..)) h
/-- Number of records on the last page: for `n` records and page size
`k`, page `⌈n/k⌉` holds `n mod k` records, or `k` when `k` divides `n`. -/
theorem lastPage_len (n k : Nat) (hk : 0 < k) (hn : 0 < n) :
    min k (n - ((n + k - 1) / k - 1) * k) = if n % k = 0 then k else n % k := by
  have hmod := Nat.div_add_mod n k
  have hrlt : n % k < k := Nat.mod_lt _ hk
  by_cases h0 : n % k = 0
  · have hqpos : 0 < n / k := by
      rcases Nat.eq_zero_or_pos (n / k) with h | h
      · rw [h, Nat.mul_zero] at hmod; omega
      · exact h
    have hceil : (n + k - 1) / k = n / k := by
      have he : n + k - 1 = k * (n / k) + (k - 1) := by omega
      rw [he, Nat.mul_add_div hk, Nat.div_eq_of_lt (show k - 1 < k by omega), Nat.add_zero]
    have hstep : (n / k - 1) * k = k * (n / k) - k := by
      rw [Nat.sub_mul, Nat.one_mul, Nat.mul_comm]
    have hbridge : k ≤ k * (n / k) := by
      calc k = k * 1 := (Nat.mul_one k).symm
        _ ≤ k * (n / k) := Nat.mul_le_mul_left k hqpos
    rw [hceil, hstep, if_pos h0]
    omega
  · have hceil : (n + k - 1) / k = n / k + 1 := by
      have hexp : k * (n / k + 1) = k * (n / k) + k := by rw [Nat.mul_add, Nat.mul_one]
      have he : n + k - 1 = k * (n / k + 1) + (n % k - 1) := by omega
      rw [he, Nat.mul_add_div hk, Nat.div_eq_of_lt (show n % k - 1 < k by omega), Nat.add_zero]
    have hstep : (n / k) * k = k * (n / k) := Nat.mul_comm ..
    rw [hceil, Nat.add_sub_cancel, if_neg h0, hstep]
    omega

/- ===================== claim theorems ===================== -/

/-- C1 amended: for a list request with `page = p ≥ 1` and
`per_page = k ≥ 1` whose `sort` either names a `Book` column or names
no attribute of the class at all, `get_books` succeeds and returns the
contiguous slice of `k` records at offset `(p-1)*k` of the sorted
collection together with the total record count; page `⌈total/k⌉`
holds `total mod k` records (`k` when `k` divides `total`), and any
page beyond the last yields an empty `books` array, never an error.
(A `sort` naming a non-column attribute such as `to_dict` instead makes
`order_by` raise: HTTP 500.) -/
theorem get_books_pagination_spec (db : DB) (p k : Nat) (sort order : String)
    (hp : 1 ≤ p) (hk : 1 ≤ k)
    (hok : sort ∈ sortColumns ∨ hasattrBook sort = false) :
    (get_books db p k sort order).success = true ∧
    get_books db p k sort order =
      Resp.listOk p k db.length (((sortBooks db sort order).drop ((p - 1) * k)).take k) ∧
    (get_books db p k sort order).books.length = min k (db.length - (p - 1) * k) ∧
    (p = (db.length + k - 1) / k → 0 < db.length →
      (get_books db p k sort order).books.length =
        if db.length % k = 0 then k else db.length % k) ∧
    (db.length ≤ (p - 1) * k → (get_books db p k sort order).books = []) := by
  have hp0 : p ≠ 0 := by omega
  have hk0 : k ≠ 0 := by omega
  have hno : ¬(hasattrBook sort = true ∧ sort ∉ sortColumns) := by
    rcases hok with h | h
    · exact fun hc => hc.2 h
    · exact fun hc => by rw [h] at hc; exact absurd hc.1 (by simp)
  have hdef : get_books db p k sort order =
      Resp.listOk p k db.length (((sortBooks db sort order).drop ((p - 1) * k)).take k) := by
    simp [get_books, hno, hp0, hk0]
  have hlen : (get_books db p k sort order).books.length = min k (db.length - (p - 1) * k) := by
    rw [hdef]
    simp [Resp.books, List.length_take, List.length_drop, sortBooks_length]
  refine ⟨by rw [hdef]; rfl, hdef, hlen, ?_, ?_⟩
  · intro hpc hpos
    rw [hlen, hpc]
    exact lastPage_len db.length k (by omega) hpos
  · intro hbeyond
    rw [hdef]
    show (((sortBooks db sort order).drop ((p - 1) * k)).take k) = []
    have hd : (sortBooks db sort order).length ≤ (p - 1) * k := by
      rw [sortBooks_length]; exact hbeyond
    rw [List.drop_eq_nil_of_le hd, List.take_nil]

def wDb : DB :=
  [⟨1, "A", "a", none, none, 0⟩, ⟨2, "B", "b", none, none, 1⟩, ⟨3, "C", "c", none, none, 2⟩]

/-- C1 counterexample: `sort=to_dict` passes the `hasattr` guard but
is not a column, so `order_by` raises and the list request ends in
HTTP 500, refuting the claim's "never an error". -/
theorem get_books_pagination_cex :
    (get_books wDb 1 2 "to_dict" "asc").status = 500 ∧
    (get_books wDb 1 2 "to_dict" "asc").success = false := by decide

theorem get_books_pagination_witness :
    (get_books wDb 2 2 "id" "asc").success = true ∧
    (get_books wDb 2 2 "id" "asc").books.length = 1 ∧
    (get_books wDb 5 2 "id" "asc").books = [] := by
  have h := get_books_pagination_spec wDb 2 2 "id" "asc" (by decide) (by decide) (by decide)
  have h5 := get_books_pagination_spec wDb 5 2 "id" "asc" (by decide) (by decide) (by decide)
  refine ⟨h.1, ?_, h5.2.2.2.2 (by decide)⟩
  have hl := h.2.2.2.1 (by decide) (by decide)
  rw [hl]
  decide

/-- C9 amended: when `sort` names a `Book` column the request succeeds
and the returned books are ordered by that column (descending for
`order = 'desc'`, ascending otherwise — both encoded in `bookRel`);
when `sort` names a non-column attribute of the class (such as the
`to_dict` method) the `hasattr` guard passes but `order_by` raises,
ending the request in HTTP 500 rather than a silent fallback; only
when `sort` names no attribute at all does the handler silently fall
back to the unsorted traversal, still with `success=true`. -/
theorem get_books_sort_spec (db : DB) (page per_page : Nat) (sort order : String) :
    (sort ∈ sortColumns →
      (get_books db page per_page sort order).success = true ∧
      List.Sorted (bookRel sort order) (get_books db page per_page sort order).books) ∧
    (hasattrBook sort = true → sort ∉ sortColumns →
      get_books db page per_page sort order = Resp.serverError) ∧
    (hasattrBook sort = false →
      (get_books db page per_page sort order).success = true ∧
      (1 ≤ page → 1 ≤ per_page →
        (get_books db page per_page sort order).books =
          (db.drop ((page - 1) * per_page)).take per_page)) := by
  refine ⟨?_, ?_, ?_⟩
  · intro h
    have hno : ¬(hasattrBook sort = true ∧ sort ∉ sortColumns) := fun hc => hc.2 h
    have hdef2 : get_books db page per_page sort order =
        Resp.listOk page per_page db.length
          (((sortBooks db sort order).drop
              (((if page = 0 then 1 else page) - 1) *
                (if per_page = 0 then 20 else per_page))).take
            (if per_page = 0 then 20 else per_page)) := by
      simp [get_books, hno]
    rw [hdef2]
    exact ⟨rfl, sorted_take_drop _ _ (sortBooks_sorted db order h)⟩
  · intro ht hn
    simp [get_books, ht, hn]
  · intro hf
    have hno : ¬(hasattrBook sort = true ∧ sort ∉ sortColumns) := fun hc => by
      rw [hf] at hc
      exact absurd hc.1 (by simp)
    have hcol : sort ∉ sortColumns := by
      intro hc
      have hh : hasattrBook sort = true := by simp [hasattrBook, hc]
      rw [hf] at hh
      cases hh
    constructor
    · simp [get_books, hno, Resp.success]
    · intro hp hk
      have hp0 : page ≠ 0 := by omega
      have hk0 : per_page ≠ 0 := by omega
      simp [get_books, Resp.books, sortBooks, hno, hcol, hp0, hk0, hf]

/-- C9 counterexample: `sort=query` names an actual (non-column)
attribute of the Book class, yet the result is HTTP 500 — neither a
result ordered by that attribute nor a silent fallback with success. -/
theorem get_books_sort_cex :
    (get_books wDb 1 5 "query" "desc").status = 500 ∧
    (get_books wDb 1 5 "query" "desc").success = false := by decide

theorem get_books_sort_witness :
    ((get_books wDb 1 5 "year" "desc").success = true ∧
      List.Sorted (bookRel "year" "desc") (get_books wDb 1 5 "year" "desc").books) ∧
    get_books wDb 1 5 "to_dict" "desc" = Resp.serverError ∧
    (get_books wDb 1 5 "bogus" "desc").books = (wDb.drop 0).take 5 := by
  have h := get_books_sort_spec wDb 1 5 "year" "desc"
  have hr := get_books_sort_spec wDb 1 5 "to_dict" "desc"
  have hb := get_books_sort_spec wDb 1 5 "bogus" "desc"
  refine ⟨h.1 (by decide), hr.2.1 (by decide) (by decide), ?_⟩
  have hbb := (hb.2.2 (by decide)).2 (by decide) (by decide)
  simpa using hbb

/-- C10: in the update handler the existence check precedes body
validation: a missing id yields 404 whatever the body (even `none`),
and the 400 "No data provided" branch is reachable only when a record
with the id exists. -/
theorem update_book_notfound_precedence :
    (∀ (db : DB) (id : Nat) (body : Option BookBody), lookupBook db id = none →
      update_book db id body = (Resp.errResp 404 "Book not found", db)) ∧
    (∀ (db : DB) (id : Nat) (body : Option BookBody),
      (update_book db id body).fst = Resp.errResp 400 "No data provided" →
      ∃ b, lookupBook db id = some b) := by
  constructor
  · intro db id body h
    unfold update_book
    rw [h]
  · intro db id body h
    cases hl : lookupBook db id with
    | none =>
      unfold update_book at h
      rw [hl] at h
      simp at h
    | some b => exact ⟨b, rfl⟩

theorem update_book_notfound_witness :
    update_book [] 7 none = (Resp.errResp 404 "Book not found", []) ∧
    ∃ b, lookupBook wDb 1 = some b := by
  constructor
  · exact update_book_notfound_precedence.1 [] 7 none rfl
  · exact update_book_notfound_precedence.2 wDb 1 (some { title := none, author := none, year := none, isbn := none }) (by decide)

/-- The claim's characterization of create's 400 rejections: absent or
empty body, missing/empty `title` or `author`, or a non-empty `isbn`
already persisted. -/
def specCreate400 (db : DB) (body : Option BookBody) : Bool :=
  match body with
  | none => true
  | some d =>
    d.isEmpty || !(truthy d.title && truthy d.author) ||
      (truthy (jsonVal d.isbn) && isbnTaken db (jsonVal d.isbn))

theorem create_400_iff (db : DB) (now : Nat) (body : Option BookBody) :
    ((create_book db now body).fst.status = 400 ∧
        (create_book db now body).fst.success = false) ↔
      specCreate400 db body = true := by
  cases body with
  | none => simp [create_book, specCreate400, Resp.status, Resp.success]
  | some d =>
    by_cases h1 : d.isEmpty = true <;>
    by_cases hA : truthy d.title = true <;>
    by_cases hB : truthy d.author = true <;>
    by_cases hC : truthy (jsonVal d.isbn) = true <;>
    by_cases hD : isbnTaken db (jsonVal d.isbn) = true <;>
      simp [create_book, specCreate400, h1, hA, hB, hC, hD,
        Resp.status, Resp.success, mkNewBook]

theorem create_book_accepted (db : DB) (now : Nat) (d : BookBody)
    (h1 : d.isEmpty = false) (hA : truthy d.title = true) (hB : truthy d.author = true)
    (hnc : (truthy (jsonVal d.isbn) && isbnTaken db (jsonVal d.isbn)) = false) :
    (isbnTaken db (jsonVal d.isbn) = true →
      create_book db now (some d) = (Resp.serverError, db)) ∧
    (isbnTaken db (jsonVal d.isbn) = false →
      create_book db now (some d) =
        (Resp.createdOk (mkNewBook db now d), db ++ [mkNewBook db now d])) := by
  constructor
  · intro h
    have hC : truthy (jsonVal d.isbn) = false := by
      rcases Bool.eq_false_or_eq_true (truthy (jsonVal d.isbn)) with hc | hc
      · simp [hc, h] at hnc
      · exact hc
    simp [create_book, h1, hA, hB, hC, mkNewBook, h]
  · intro h
    simp [create_book, h1, hA, hB, hnc, mkNewBook, h]

/-- C2 amended: create answers 400 with a `success=false` envelope
exactly for the inputs of `specCreate400` (absent/empty body,
missing/empty title or author, non-empty duplicate isbn); for accepted
bodies, if the stored isbn still collides with a persisted one — which
can only happen for the empty-string isbn, which the truthiness check
lets through — the storage unique constraint aborts the commit
(HTTP 500, collection unchanged); otherwise create persists a record
with server-assigned id and created_at, `year`/`isbn` as given (null
when absent), and answers 201 with the record. -/
theorem create_book_contract (db : DB) (now : Nat) (body : Option BookBody) :
    (((create_book db now body).fst.status = 400 ∧
        (create_book db now body).fst.success = false) ↔
      specCreate400 db body = true) ∧
    (∀ d, body = some d → specCreate400 db body = false →
      (isbnTaken db (jsonVal d.isbn) = true →
        create_book db now body = (Resp.serverError, db) ∧ jsonVal d.isbn = some "") ∧
      (isbnTaken db (jsonVal d.isbn) = false →
        create_book db now body =
          (Resp.createdOk (mkNewBook db now d), db ++ [mkNewBook db now d]) ∧
        (mkNewBook db now d).id = freshId db ∧
        (mkNewBook db now d).created_at = now ∧
        (mkNewBook db now d).year = jsonVal d.year ∧
        (mkNewBook db now d).isbn = jsonVal d.isbn)) := by
  refine ⟨create_400_iff db now body, ?_⟩
  rintro d rfl hspec
  simp [specCreate400] at hspec
  obtain ⟨⟨h1, hA, hB⟩, hCD⟩ := hspec
  constructor
  · intro htaken
    have hC : truthy (jsonVal d.isbn) = false := by
      by_cases hc : truthy (jsonVal d.isbn) = true
      · rw [hCD hc] at htaken; cases htaken
      · simpa using hc
    have hnc : (truthy (jsonVal d.isbn) && isbnTaken db (jsonVal d.isbn)) = false := by
      simp [hC]
    have hsome : jsonVal d.isbn = some "" := by
      cases hv : jsonVal d.isbn with
      | none => rw [hv] at htaken; simp [isbnTaken] at htaken
      | some s =>
        rw [hv] at hC
        simp [truthy] at hC
        rw [hC]
    exact ⟨(create_book_accepted db now d h1 hA hB hnc).1 htaken, hsome⟩
  · intro hfree
    have hnc : (truthy (jsonVal d.isbn) && isbnTaken db (jsonVal d.isbn)) = false := by
      simp [hfree]
    exact ⟨(create_book_accepted db now d h1 hA hB hnc).2 hfree, rfl, rfl, rfl, rfl⟩

def cexDb2 : DB := [⟨1, "Old", "Auth", none, some "", 0⟩]

def cexBody2 : BookBody :=
  { title := some "New", author := some "Writer", year := none, isbn := some (some "") }

/-- C2 counterexample: a create request that passes validation but whose
isbn is the empty string while an empty-string isbn is already persisted
ends in HTTP 500 — neither the claimed 400 envelope nor the claimed
201 persist. -/
theorem create_book_contract_cex :
    (create_book cexDb2 9 (some cexBody2)).fst.status = 500 ∧
    (create_book cexDb2 9 (some cexBody2)).snd = cexDb2 := by decide

def wBody2 : BookBody :=
  { title := some "Dune", author := some "Herbert", year := some (some 1965),
    isbn := some (some "978-9") }

theorem create_book_contract_witness :
    create_book wDb 9 (some wBody2) =
      (Resp.createdOk (mkNewBook wDb 9 wBody2), wDb ++ [mkNewBook wDb 9 wBody2]) :=
  ((((create_book_contract wDb 9 (some wBody2)).2 wBody2 rfl (by decide)).2) (by decide)).1

/-- C3 amended: a create whose body passes title/author validation and
carries a non-empty isbn already persisted fails with the conflict
envelope (400 "ISBN already exists") and leaves the collection
unchanged; when the duplicate isbn is the empty string the truthiness
check skips the duplicate test and the storage unique constraint
rejects the commit instead (HTTP 500), also leaving the collection —
and hence the count of records carrying that isbn — unchanged. -/
theorem create_book_conflict_amended (db : DB) (now : Nat) (d : BookBody) (s : String)
    (hisbn : jsonVal d.isbn = some s) (htaken : isbnTaken db (some s) = true)
    (ht : truthy d.title = true) (ha : truthy d.author = true) :
    (s ≠ "" → create_book db now (some d) = (Resp.errResp 400 "ISBN already exists", db)) ∧
    (s = "" → create_book db now (some d) = (Resp.serverError, db)) ∧
    (create_book db now (some d)).snd = db ∧
    ((create_book db now (some d)).snd.filter (fun b => b.isbn == some s)).length =
      (db.filter (fun b => b.isbn == some s)).length := by
  have h1 : d.isEmpty = false := by
    cases hv : d.title with
    | none => rw [hv] at ht; simp [truthy] at ht
    | some t => simp [BookBody.isEmpty, hv]
  have hconf : s ≠ "" →
      create_book db now (some d) = (Resp.errResp 400 "ISBN already exists", db) := by
    intro hne
    have hC : truthy (some s) = true := by simp [truthy, hne]
    simp [create_book, h1, ht, ha, hC, hisbn, htaken]
  have hserv : s = "" → create_book db now (some d) = (Resp.serverError, db) := by
    intro he
    subst he
    have hC : truthy (some "") = false := by simp [truthy]
    simp [create_book, h1, ht, ha, hC, hisbn, htaken, mkNewBook]
  have hsnd : (create_book db now (some d)).snd = db := by
    by_cases he : s = ""
    · rw [hserv he]
    · rw [hconf he]
  exact ⟨hconf, hserv, hsnd, by rw [hsnd]⟩

def cexDb3 : DB := [⟨2, "Zed", "Quux", some 2000, some "", 5⟩]

def cexBody3 : BookBody :=
  { title := some "Foo", author := some "Bar", year := none, isbn := some (some "") }

/-- C3 counterexample: the body supplies the non-null isbn `""` equal to
a persisted record's isbn, yet create fails with HTTP 500 instead of
the claimed ConflictError 400 envelope. -/
theorem create_book_conflict_cex :
    (create_book cexDb3 4 (some cexBody3)).fst.status = 500 ∧
    (create_book cexDb3 4 (some cexBody3)).fst ≠ Resp.errResp 400 "ISBN already exists" := by
  decide

def wDb3 : DB := [⟨1, "A", "a", none, some "X", 0⟩]

def wBody3 : BookBody :=
  { title := some "T", author := some "U", year := none, isbn := some (some "X") }

theorem create_book_conflict_witness :
    create_book wDb3 2 (some wBody3) = (Resp.errResp 400 "ISBN already exists", wDb3) :=
  (create_book_conflict_amended wDb3 2 wBody3 "X" rfl (by decide) (by decide) (by decide)).1
    (by decide)

/-- C4: for every successful update of an existing record, exactly the
keys present in the body are applied: every absent key keeps its prior
value, `id` and `created_at` are never changed, and the persisted
collection replaces just that record — in particular a body containing
only `year` leaves `title`, `author`, `isbn` unchanged. -/
theorem update_book_frame (db : DB) (id : Nat) (d : BookBody) (b ub : Book) (db' : DB)
    (hb : lookupBook db id = some b)
    (h : update_book db id (some d) = (Resp.updatedOk ub, db')) :
    ub = applyUpdate b d ∧
    ub.id = b.id ∧
    ub.created_at = b.created_at ∧
    (d.title = none → ub.title = b.title) ∧
    (∀ v, d.title = some v → ub.title = v) ∧
    (d.author = none → ub.author = b.author) ∧
    (∀ v, d.author = some v → ub.author = v) ∧
    (d.year = none → ub.year = b.year) ∧
    (∀ v, d.year = some v → ub.year = v) ∧
    (d.isbn = none → ub.isbn = b.isbn) ∧
    (∀ v, d.isbn = some v → ub.isbn = v) ∧
    db' = db.map (fun x => if x.id == id then ub else x) := by
  unfold update_book at h
  rw [hb] at h
  by_cases h1 : d.isEmpty = true
  · simp [h1] at h
  · by_cases h2 : isbnConflicts db id (applyUpdate b d).isbn = true
    · simp [h1, h2] at h
    · simp only [h1, h2, if_false, Bool.false_eq_true, if_neg] at h
      rw [Prod.mk.injEq] at h
      obtain ⟨hfst, hsnd⟩ := h
      have hub : ub = applyUpdate b d := by
        injection hfst with h'
        exact h'.symm
      have hdb : db' = db.map (fun x => if x.id == id then applyUpdate b d else x) :=
        hsnd.symm
      subst hub
      refine ⟨rfl, rfl, rfl, ?_, ?_, ?_, ?_, ?_, ?_, ?_, ?_, hdb⟩
      · intro hv; simp [applyUpdate, hv]
      · intro v hv; simp [applyUpdate, hv]
      · intro hv; simp [applyUpdate, hv]
      · intro v hv; simp [applyUpdate, hv]
      · intro hv; simp [applyUpdate, hv]
      · intro v hv; simp [applyUpdate, hv]
      · intro hv; simp [applyUpdate, hv]
      · intro v hv; simp [applyUpdate, hv]

def wBody4 : BookBody := { year := some (some 1999) }

theorem update_book_frame_witness :
    (Book.mk 2 "B" "b" (some 1999) none 1).title = (Book.mk 2 "B" "b" none none 1).title ∧
    (Book.mk 2 "B" "b" (some 1999) none 1).isbn = (Book.mk 2 "B" "b" none none 1).isbn ∧
    (Book.mk 2 "B" "b" (some 1999) none 1).year = some 1999 ∧
    (Book.mk 2 "B" "b" (some 1999) none 1).created_at = (Book.mk 2 "B" "b" none none 1).created_at := by
  have h := update_book_frame wDb 2 wBody4 (Book.mk 2 "B" "b" none none 1)
      (Book.mk 2 "B" "b" (some 1999) none 1)
      [Book.mk 1 "A" "a" none none 0, Book.mk 2 "B" "b" (some 1999) none 1,
        Book.mk 3 "C" "c" none none 2]
      (by decide) (by decide)
  obtain ⟨_, _, hca, htn, _, _, _, _, hys, hin, _, _⟩ := h
  exact ⟨htn rfl, hin rfl, hys (some 1999) rfl, hca⟩

/-- The spec's data-model invariant: `title` and `author` are never
empty for a persisted record. -/
def TitleAuthorInv (db : DB) : Prop :=
  ∀ b ∈ db, b.title ≠ "" ∧ b.author ≠ ""

theorem truthy_getD {o : Option String} (h : truthy o = true) : o.getD "" ≠ "" := by
  cases o with
  | none => simp [truthy] at h
  | some s => simpa [truthy] using h

/-- The committed state of create: unchanged, or appended with the new
record built from a body whose title and author are truthy. -/
theorem create_book_snd_cases (db : DB) (now : Nat) (body : Option BookBody) :
    (create_book db now body).snd = db ∨
    ∃ d, body = some d ∧ truthy d.title = true ∧ truthy d.author = true ∧
      (create_book db now body).snd = db ++ [mkNewBook db now d] := by
  cases body with
  | none => left; rfl
  | some d =>
    by_cases h1 : d.isEmpty = true
    · left; simp [create_book, h1]
    · by_cases h2 : (truthy d.title && truthy d.author) = true
      · by_cases h3 : (truthy (jsonVal d.isbn) && isbnTaken db (jsonVal d.isbn)) = true
        · left; simp [create_book, h1, h2, h3]
        · by_cases h4 : isbnTaken db (jsonVal d.isbn) = true
          · left
            simp [create_book, h1, h2, h3, mkNewBook, h4]
            split <;> rfl
          · right
            refine ⟨d, rfl, ((Bool.and_eq_true _ _).mp h2).1, ((Bool.and_eq_true _ _).mp h2).2, ?_⟩
            simp [create_book, h1, h2, h3, mkNewBook, h4]
      · left; simp [create_book, h1, h2]

/-- C6 amended: create and delete preserve the non-emptiness of
`title`/`author`, and so does an update whose body does not itself
supply an empty title or author; the update handler performs no
emptiness validation, so an update carrying an empty string writes it
through. -/
theorem title_author_invariant_amended (db : DB) (hinv : TitleAuthorInv db) :
    (∀ now body, TitleAuthorInv (create_book db now body).snd) ∧
    (∀ id, TitleAuthorInv (delete_book db id).snd) ∧
    (∀ id, TitleAuthorInv (update_book db id none).snd) ∧
    (∀ id d, (∀ t, d.title = some t → t ≠ "") → (∀ a, d.author = some a → a ≠ "") →
      TitleAuthorInv (update_book db id (some d)).snd) := by
  refine ⟨?_, ?_, ?_, ?_⟩
  · intro now body
    rcases create_book_snd_cases db now body with h | ⟨d, hbody, ht, ha, h⟩
    · rw [h]; exact hinv
    · rw [h]
      intro x hx
      rcases List.mem_append.mp hx with hx | hx
      · exact hinv x hx
      · have hxeq : x = mkNewBook db now d := by simpa using hx
        subst hxeq
        exact ⟨truthy_getD ht, truthy_getD ha⟩
  · intro id
    unfold delete_book
    cases hl : lookupBook db id with
    | none => exact hinv
    | some b =>
      intro x hx
      exact hinv x (List.mem_of_mem_filter hx)
  · intro id
    unfold update_book
    cases hl : lookupBook db id with
    | none => exact hinv
    | some b => exact hinv
  · intro id d ht ha
    unfold update_book
    cases hl : lookupBook db id with
    | none => exact hinv
    | some b =>
      have hbmem : b ∈ db := List.mem_of_find?_eq_some hl
      by_cases h1 : d.isEmpty = true
      · simp only [h1, if_true]
        exact hinv
      · simp only [h1, Bool.false_eq_true, if_false, if_neg]
        by_cases h2 : isbnConflicts db id (applyUpdate b d).isbn = true
        · simp only [h2, if_true]
          exact hinv
        · simp only [h2, Bool.false_eq_true, if_false, if_neg]
          intro x hx
          rcases List.mem_map.mp hx with ⟨y, hy, rfl⟩
          by_cases hid : (y.id == id) = true
          · rw [if_pos hid]
            constructor
            · cases hvt : d.title with
              | none => simpa [applyUpdate, hvt] using (hinv b hbmem).1
              | some t => simpa [applyUpdate, hvt] using ht t hvt
            · cases hva : d.author with
              | none => simpa [applyUpdate, hva] using (hinv b hbmem).2
              | some a => simpa [applyUpdate, hva] using ha a hva
          · rw [if_neg hid]
            exact hinv y hy

def cexDb6 : DB := [⟨1, "Title", "Auth", none, none, 0⟩]

def cexBody6 : BookBody := { title := some "" }

/-- C6 counterexample: an update whose body carries an empty `title`
succeeds and persists a record with an empty title, breaking the
claimed invariant. -/
theorem title_author_invariant_cex :
    (update_book cexDb6 1 (some cexBody6)).fst.success = true ∧
    ((update_book cexDb6 1 (some cexBody6)).snd.any (fun b => b.title == "")) = true := by
  decide

theorem title_author_invariant_witness :
    TitleAuthorInv (create_book wDb 9 (some wBody2)).snd :=
  (title_author_invariant_amended wDb (by unfold TitleAuthorInv; decide)).1 9 (some wBody2)

/-- C7: the update handler writes the body's isbn value verbatim —
`applyUpdate` takes only the loaded record and the body, consulting no
other record — and update never answers the ConflictError envelope:
when the new isbn duplicates another record's, the request ends in the
storage-constraint error (HTTP 500), not a 400 conflict. -/
theorem update_book_no_conflict_check :
    (∀ (b : Book) (d : BookBody) (v : Option String),
      d.isbn = some v → (applyUpdate b d).isbn = v) ∧
    (∀ (db : DB) (id : Nat) (body : Option BookBody),
      (update_book db id body).fst ≠ Resp.errResp 400 "ISBN already exists") ∧
    (∀ (db : DB) (id : Nat) (d : BookBody) (b : Book),
      lookupBook db id = some b → d.isEmpty = false →
      isbnConflicts db id (applyUpdate b d).isbn = true →
      update_book db id (some d) = (Resp.serverError, db)) := by
  refine ⟨?_, ?_, ?_⟩
  · intro b d v hv
    simp [applyUpdate, hv]
  · intro db id body
    unfold update_book
    cases hl : lookupBook db id with
    | none => simp
    | some b =>
      cases body with
      | none => simp
      | some d =>
        by_cases h1 : d.isEmpty = true
        · simp [h1]
        · by_cases h2 : isbnConflicts db id (applyUpdate b d).isbn = true
          · simp [h1, h2]
          · simp [h1, h2]
  · intro db id d b hb h1 h2
    unfold update_book
    rw [hb]
    simp [h1, h2]

def wDb7 : DB :=
  [⟨1, "A", "a", none, some "S1", 0⟩, ⟨2, "B", "b", none, some "S2", 1⟩]

def wBody7 : BookBody := { isbn := some (some "S1") }

theorem update_book_no_conflict_witness :
    (applyUpdate (Book.mk 2 "B" "b" none (some "S2") 1) wBody7).isbn = some "S1" ∧
    (update_book wDb7 2 (some wBody7)).fst ≠ Resp.errResp 400 "ISBN already exists" ∧
    update_book wDb7 2 (some wBody7) = (Resp.serverError, wDb7) := by
  have h := update_book_no_conflict_check
  exact ⟨h.1 (Book.mk 2 "B" "b" none (some "S2") 1) wBody7 (some "S1") rfl,
    h.2.1 wDb7 2 (some wBody7),
    h.2.2 wDb7 2 wBody7 (Book.mk 2 "B" "b" none (some "S2") 1) (by decide) (by decide) (by decide)⟩

/-- A trailing `%` matches any remaining text. -/
theorem likeMatch_trailing (l : List Char) : likeMatch ['%'] l = true := by
  have h : likeMatch ['%'] l =
      (List.range (l.length + 1)).any (fun i => likeMatch [] (l.drop i)) := rfl
  rw [h, List.any_eq_true]
  exact ⟨l.length, List.mem_range.mpr (by omega), by rw [List.drop_length]; rfl⟩

theorem ilikeContains_empty (t : String) : ilikeContains t "" = true := by
  show likeMatch (Char.ofNat 37 :: (lowerChars "" ++ [Char.ofNat 37])) (lowerChars t) = true
  have h : likeMatch (Char.ofNat 37 :: (lowerChars "" ++ [Char.ofNat 37])) (lowerChars t) =
      (List.range ((lowerChars t).length + 1)).any
        (fun i => likeMatch [Char.ofNat 37] ((lowerChars t).drop i)) := rfl
  rw [h, List.any_eq_true]
  exact ⟨(lowerChars t).length, List.mem_range.mpr (by omega),
    by rw [List.drop_length]; exact likeMatch_trailing []⟩

/-- The `q` filter as the claim states it: case-insensitive substring
match against `title`, trivially true when absent. -/
def qMatch (q : Option String) (b : Book) : Bool :=
  match q with
  | none => true
  | some s => ilikeContains b.title s

/-- The `author` filter: case-insensitive substring match against
`author`, trivially true when absent. -/
def authorMatch (a : Option String) (b : Book) : Bool :=
  match a with
  | none => true
  | some s => ilikeContains b.author s

/-- The `year` filter: exact integer match, trivially true when absent
or empty. -/
def yearMatch (y : Option String) (b : Book) : Bool :=
  match y with
  | none => true
  | some s => if s = "" then true else b.year == pyInt s

/-- The conjunction of the supplied search filters. -/
def searchPred (q a y : Option String) (b : Book) : Bool :=
  qMatch q b && authorMatch a b && yearMatch y b

theorem applyTitleFilter_eq (db : DB) (q : Option String) :
    applyTitleFilter q db = db.filter (qMatch q) := by
  cases q with
  | none =>
    exact (List.filter_eq_self.mpr (fun a _ => rfl)).symm
  | some s =>
    by_cases hs : s = ""
    · subst hs
      show (if ("" : String) = "" then db else db.filter (fun b => ilikeContains b.title "")) =
        db.filter (qMatch (some ""))
      rw [if_pos rfl]
      exact (List.filter_eq_self.mpr (fun a _ => by
        simp [qMatch, ilikeContains_empty])).symm
    · show (if s = "" then db else db.filter (fun b => ilikeContains b.title s)) =
        db.filter (qMatch (some s))
      rw [if_neg hs]
      exact List.filter_congr (fun x _ => rfl)

theorem applyAuthorFilter_eq (db : DB) (a : Option String) :
    applyAuthorFilter a db = db.filter (authorMatch a) := by
  cases a with
  | none =>
    exact (List.filter_eq_self.mpr (fun x _ => rfl)).symm
  | some s =>
    by_cases hs : s = ""
    · subst hs
      show (if ("" : String) = "" then db else db.filter (fun b => ilikeContains b.author "")) =
        db.filter (authorMatch (some ""))
      rw [if_pos rfl]
      exact (List.filter_eq_self.mpr (fun x _ => by
        simp [authorMatch, ilikeContains_empty])).symm
    · show (if s = "" then db else db.filter (fun b => ilikeContains b.author s)) =
        db.filter (authorMatch (some s))
      rw [if_neg hs]
      exact List.filter_congr (fun x _ => rfl)

/-- C5 amended: provided the `year` parameter, when present and
non-empty, parses as an integer, search answers a success envelope
(HTTP 200) whose `books` are exactly the records satisfying the
conjunction of the supplied filters — `q` matched against `title` by
the case-insensitive SQL pattern `LIKE '%q%'` with the parameter
interpolated unescaped, so LIKE wildcards inside it are interpreted
(`%` any run, `_` any one character; for wildcard-free parameters this
is plain case-insensitive substring containment), `author` likewise,
exact integer match on `year`, absent (or empty, hence falsy) filters
not applied — with no pagination and `count` the length of `books`; a
non-numeric `year` instead makes `int()` raise, ending the request in
HTTP 500. -/
theorem search_books_filter_amended (db : DB) (q author year : Option String)
    (hy : year = none ∨ year = some "" ∨
      ∃ s n, year = some s ∧ s ≠ "" ∧ pyInt s = some n) :
    search_books db q author year =
      Resp.searchOk (db.filter (searchPred q author year)).length
        (db.filter (searchPred q author year)) := by
  have hstage : applyAuthorFilter author (applyTitleFilter q db) =
      db.filter (fun b => authorMatch author b && qMatch q b) := by
    rw [applyTitleFilter_eq, applyAuthorFilter_eq, List.filter_filter]
  rcases hy with rfl | rfl | ⟨s, n, rfl, hs, hn⟩
  · unfold search_books
    rw [hstage]
    have hfe : db.filter (fun b => authorMatch author b && qMatch q b) =
        db.filter (searchPred q author none) :=
      List.filter_congr (fun x _ => by
        cases hq : qMatch q x <;> cases ha : authorMatch author x <;>
          simp [searchPred, yearMatch, hq, ha])
    rw [hfe]
  · unfold search_books
    rw [hstage]
    have hfe : db.filter (fun b => authorMatch author b && qMatch q b) =
        db.filter (searchPred q author (some "")) :=
      List.filter_congr (fun x _ => by
        cases hq : qMatch q x <;> cases ha : authorMatch author x <;>
          simp [searchPred, yearMatch, hq, ha])
    rw [hfe]
    rfl
  · unfold search_books
    rw [hstage]
    simp only [if_neg hs, hn]
    have hfe : (db.filter (fun b => authorMatch author b && qMatch q b)).filter
          (fun b => b.year == some n) =
        db.filter (searchPred q author (some s)) := by
      rw [List.filter_filter]
      exact List.filter_congr (fun x _ => by
        cases hq : qMatch q x <;> cases ha : authorMatch author x <;>
          simp [searchPred, yearMatch, hq, ha, hs, hn])
    rw [hfe]

/-- C5 counterexample: a search whose `year` parameter is not numeric
ends in HTTP 500, refuting "returns a success envelope, no failure
case"; and `q="a_c"` — not a substring of the title `"abc"` — still
matches it, because the unescaped interpolation makes `_` a LIKE
wildcard, refuting the claimed plain-substring result set. -/
theorem search_books_filter_cex :
    (search_books [] none none (some "x")).status = 500 ∧
    (search_books [] none none (some "x")).success = false ∧
    (search_books [⟨1, "abc", "z", none, none, 0⟩] (some "a_c") none none).books =
      [⟨1, "abc", "z", none, none, 0⟩] := by
  decide

theorem search_books_filter_witness :
    search_books wDb (some "b") none none =
      Resp.searchOk 1 [Book.mk 2 "B" "b" none none 1] := by
  have h := search_books_filter_amended wDb (some "b") none none (Or.inl rfl)
  rw [h]
  decide

theorem mem_get_books_books {x : Book} {db : DB} {page k : Nat} {s o : String}
    (h : x ∈ (get_books db page k s o).books) : x ∈ db := by
  unfold get_books at h
  by_cases hc : (hasattrBook s = true ∧ s ∉ sortColumns)
  · rw [if_pos hc] at h
    simp [Resp.books] at h
  · rw [if_neg hc] at h
    exact mem_sortBooks.mp (List.drop_subset _ _ (List.take_subset _ _ h))

theorem mem_search_books_books {x : Book} {db : DB} {q a y : Option String}
    (h : x ∈ (search_books db q a y).books) : x ∈ db := by
  have hsub : ∀ z, z ∈ applyAuthorFilter a (applyTitleFilter q db) → z ∈ db := by
    intro z hz
    rw [applyAuthorFilter_eq] at hz
    have hz1 := List.mem_of_mem_filter hz
    rw [applyTitleFilter_eq] at hz1
    exact List.mem_of_mem_filter hz1
  rcases y with _ | s
  · exact hsub x h
  · by_cases hs : s = ""
    · subst hs
      exact hsub x h
    · unfold search_books at h
      cases hn : pyInt s with
      | none => simp [hs, hn, Resp.books] at h
      | some n =>
        simp only [if_neg hs, hn, Resp.books] at h
        exact hsub x (List.mem_of_mem_filter h)

theorem lookup_filter_ne (db : DB) (id : Nat) :
    lookupBook (db.filter (fun x => x.id != id)) id = none := by
  apply List.find?_eq_none.mpr
  intro x hx
  have h2 := (List.mem_filter.mp hx).2
  simp at h2 ⊢
  exact h2

/-- C8: delete answers 404 with the collection unchanged when no record
has the path id; when one does, it removes exactly the records with
that id and answers a bare success envelope, after which that id occurs
in no list or search result and a subsequent update or delete on it
answers 404. -/
theorem delete_book_spec (db : DB) (id : Nat) :
    (lookupBook db id = none →
      delete_book db id = (Resp.errResp 404 "Book not found", db)) ∧
    (∀ b, lookupBook db id = some b →
      (delete_book db id).fst = Resp.deletedOk ∧
      (delete_book db id).snd = db.filter (fun x => x.id != id) ∧
      (∀ x ∈ (delete_book db id).snd, x.id ≠ id) ∧
      b ∉ (delete_book db id).snd ∧
      (∀ page k sort order,
        ∀ x ∈ (get_books (delete_book db id).snd page k sort order).books, x.id ≠ id) ∧
      (∀ qp ap yp,
        ∀ x ∈ (search_books (delete_book db id).snd qp ap yp).books, x.id ≠ id) ∧
      (∀ body, update_book (delete_book db id).snd id body =
        (Resp.errResp 404 "Book not found", (delete_book db id).snd)) ∧
      delete_book (delete_book db id).snd id =
        (Resp.errResp 404 "Book not found", (delete_book db id).snd)) := by
  constructor
  · intro h
    unfold delete_book
    rw [h]
  · intro b hb
    have hd : delete_book db id = (Resp.deletedOk, db.filter (fun x => x.id != id)) := by
      unfold delete_book
      rw [hb]
    have hsnd : (delete_book db id).snd = db.filter (fun x => x.id != id) := by rw [hd]
    have hmem : ∀ x ∈ (delete_book db id).snd, x.id ≠ id := by
      intro x hx
      rw [hsnd] at hx
      have h2 := (List.mem_filter.mp hx).2
      simpa using h2
    have hlk : lookupBook (delete_book db id).snd id = none := by
      rw [hsnd]
      exact lookup_filter_ne db id
    refine ⟨by rw [hd], hsnd, hmem, ?_, ?_, ?_, ?_, ?_⟩
    · intro hbin
      have hbid : b.id = id := by simpa using List.find?_some hb
      exact hmem b hbin hbid
    · intro page k sort order x hx
      exact hmem x (mem_get_books_books hx)
    · intro qp ap yp x hx
      exact hmem x (mem_search_books_books hx)
    · intro body
      rw [hsnd]
      unfold update_book
      rw [lookup_filter_ne]
    · rw [hsnd]
      unfold delete_book
      rw [lookup_filter_ne]

theorem delete_book_spec_witness :
    (delete_book wDb 2).fst = Resp.deletedOk ∧
    (delete_book wDb 2).snd = [Book.mk 1 "A" "a" none none 0, Book.mk 3 "C" "c" none none 2] ∧
    update_book (delete_book wDb 2).snd 2 none =
      (Resp.errResp 404 "Book not found", (delete_book wDb 2).snd) ∧
    delete_book (delete_book wDb 2).snd 2 =
      (Resp.errResp 404 "Book not found", (delete_book wDb 2).snd) := by
  have h := (delete_book_spec wDb 2).2 (Book.mk 2 "B" "b" none none 1) (by decide)
  refine ⟨h.1, ?_, h.2.2.2.2.2.2.1 none, h.2.2.2.2.2.2.2⟩
  rw [h.2.1]
  decide
